import Mathlib

set_option maxRecDepth 100000

/-!
Verification development for the Code-Modernization repository (src/app.py).

The application is a Streamlit UI that builds one of two LangChain prompt
templates from the user's language selections and code, dispatches it to an
external model, and renders the result.  We embed the prompt templates, the
Python `str.format`-style substitution that `PromptTemplate` performs, the
`LANGUAGES` mapping, the startup credential check, and the process-button
handler as pure Lean functions, with the external model call abstracted as a
function returning `Except String String`.
-/

namespace CodeModernization

/-- A piece of a parsed prompt template: either literal text or a
variable placeholder (the text between a pair of braces). -/
inductive Part where
  | lit (cs : List Char)
  | var (cs : List Char)
deriving DecidableEq, Repr

/-- Scanner for `str.format`-style templates.  The `Bool` flag records
whether we are currently inside a brace-delimited placeholder; `cur` is the
reversed accumulator of the current run of characters. -/
def parseAux : Bool → List Char → List Char → List Part
  | false, cur, [] => [Part.lit cur.reverse]
  | true, cur, [] => [Part.var cur.reverse]
  | false, cur, c :: rest =>
    if c = '\x7b' then Part.lit cur.reverse :: parseAux true [] rest
    else parseAux false (c :: cur) rest
  | true, cur, c :: rest =>
    if c = '\x7d' then Part.var cur.reverse :: parseAux false [] rest
    else parseAux true (c :: cur) rest

/-- Parse a template string into literal and placeholder parts. -/
def parseTemplate (t : String) : List Part := parseAux false [] t.data

/-- Substitute an assignment of placeholder names into one part. -/
def substPart (assign : String → String) : Part → String
  | Part.lit cs => String.mk cs
  | Part.var cs => assign (String.mk cs)

/-- Render a parsed template under an assignment: substitute every part and
concatenate the results. -/
def renderParts (ps : List Part) (assign : String → String) : String :=
  (ps.map (substPart assign)).foldr (fun a b => a ++ b) ""

/-- The `conversion_template` string of src/app.py (lines 41-44), verbatim. -/
def conversion_template : String :=
  "You are an expert code converter. Convert the following {input_language} code to {output_language} code. Focus on maintaining logic and functionality, and use idiomatic {output_language} where appropriate. Provide only the converted code, without any extra explanations, comments outside the code, or markdown comments like 'Here is the converted code:'.\n\n{input_language} Code:\n```\n{code}\n```\n\n{output_language} Code:"

/-- The `readability_template` string of src/app.py (lines 48-51), verbatim. -/
def readability_template : String :=
  "You are an expert code improver. Improve the readability, clarity, and adherence to standard best practices of the following {language} code. This includes better variable names, consistent formatting, comments where necessary, and breaking down complex parts. Provide only the improved code, without any extra explanations, comments outside the code, or markdown comments like 'Here is the improved code:'.\n\n{language} Code:\n```\n{code}\n```\n\nImproved {language} Code:"

/-- Placeholder assignment used by `conversion_chain.run(input_language=...,
output_language=..., code=...)`. -/
def convAssign (s t c : String) : String → String := fun n =>
  if n = "input_language" then s
  else if n = "output_language" then t
  else if n = "code" then c
  else ""

/-- Placeholder assignment used by `readability_chain.run(language=..., code=...)`. -/
def imprAssign (l c : String) : String → String := fun n =>
  if n = "language" then l
  else if n = "code" then c
  else ""

/-- The prompt rendered by the CONVERT template for source language `s`,
target language `t` and code `c`. -/
def renderConvert (s t c : String) : String :=
  renderParts (parseTemplate conversion_template) (convAssign s t c)

/-- The prompt rendered by the IMPROVE template for language `l` and code `c`. -/
def renderImprove (l c : String) : String :=
  renderParts (parseTemplate readability_template) (imprAssign l c)

/-- The `LANGUAGES` dictionary of src/app.py (lines 25-36), in source order:
display name paired with its canonical lowercase slug. -/
def LANGUAGES : List (String × String) :=
  [("C++", "cpp"), ("Python", "python"), ("Java", "java"),
   ("JavaScript", "javascript"), ("Go", "go"), ("Rust", "rust"),
   ("TypeScript", "typescript"), ("C#", "csharp"), ("PHP", "php"),
   ("Ruby", "ruby")]

/-- Number of (possibly overlapping) occurrences of the pattern `p` as a
contiguous sublist of `s`: the number of positions at which `p` is a prefix
of the remaining list. -/
def countOcc (p : List Char) : List Char → Nat
  | [] => if p.isPrefixOf [] then 1 else 0
  | c :: rest => (if p.isPrefixOf (c :: rest) then 1 else 0) + countOcc p rest

/-- Everything the process-button handler (src/app.py lines 76-99) makes
observable on one click: the warning for empty input, the prompt given to
the chain (if any), whether the model was called, the rendered output code
together with its display-syntax language hint, and the success / error /
info messages. -/
structure Outcome where
  warning : Option String
  prompt : Option String
  dispatched : Bool
  displayed : Option (String × String)
  success : Option String
  errorMsg : Option String
  info : Option String
deriving DecidableEq, Repr

/-- The observable result of clicking the process button with an empty code
box: only the warning of src/app.py line 78 is shown. -/
def emptyCodeOutcome : Outcome :=
  { warning := some "Please enter some code to process.",
    prompt := none, dispatched := false, displayed := none,
    success := none, errorMsg := none, info := none }

/-- The st.info text shown after a processing error (src/app.py line 99). -/
def apiInfoText : String :=
  "Please check your input code, selected languages, and ensure your Google API Key is valid and active."

/-- The process-button handler of src/app.py (lines 76-99).  The two
selectboxes yield indices `i`, `j` into `LANGUAGES`; `code` is the text
area content and `model` abstracts `chain.run` on the rendered prompt
(`Except.error` standing for a raised exception, caught by the handler's
`try`/`except`). -/
def process (i j : Fin LANGUAGES.length) (code : String)
    (model : String → Except String String) : Outcome :=
  let inName := (LANGUAGES.get i).1
  let inSlug := (LANGUAGES.get i).2
  let outName := (LANGUAGES.get j).1
  let outSlug := (LANGUAGES.get j).2
  if code = "" then
    { warning := some "Please enter some code to process.",
      prompt := none, dispatched := false, displayed := none,
      success := none, errorMsg := none, info := none }
  else if inSlug = outSlug then
    let p := renderImprove inName code
    match model p with
    | Except.ok t =>
      { warning := none, prompt := some p, dispatched := true,
        displayed := some (t, outSlug),
        success := some ("Code readability improved for " ++ inName ++ "!"),
        errorMsg := none, info := none }
    | Except.error e =>
      { warning := none, prompt := some p, dispatched := true,
        displayed := none, success := none,
        errorMsg := some ("An error occurred during processing: " ++ e),
        info := some apiInfoText }
  else
    let p := renderConvert inName outName code
    match model p with
    | Except.ok t =>
      { warning := none, prompt := some p, dispatched := true,
        displayed := some (t, outSlug),
        success := some ("Code converted from " ++ inName ++ " to " ++ outName ++ "!"),
        errorMsg := none, info := none }
    | Except.error e =>
      { warning := none, prompt := some p, dispatched := true,
        displayed := none, success := none,
        errorMsg := some ("An error occurred during processing: " ++ e),
        info := some apiInfoText }

/-- Result of the startup sequence: either the script halts (`st.stop`)
after showing an error, or the UI that accepts requests is rendered. -/
inductive AppStart where
  | halted (msg : String)
  | running
deriving DecidableEq, Repr

/-- The error shown when the credential is missing (src/app.py line 14). -/
def keyMissingMsg : String :=
  "`GOOGLE_API_KEY` not found in environment variables. Please set it in a `.env` file or directly in your environment."

/-- The startup sequence of src/app.py (lines 13-22): if `GOOGLE_API_KEY`
is not among the environment variables, show the error naming it and stop;
otherwise initialize the LLM (abstracted as `llmInit`, whose `Except.error`
stands for a raised exception) and stop on failure; only then is the
request-accepting UI rendered. -/
def startApp (env : List (String × String)) (llmInit : Except String Unit) : AppStart :=
  if (env.lookup "GOOGLE_API_KEY").isNone then AppStart.halted keyMissingMsg
  else
    match llmInit with
    | Except.error e =>
      AppStart.halted
        ("Failed to initialize Gemini LLM. Check your `GOOGLE_API_KEY` and internet connection. Error: " ++ e)
    | Except.ok _ => AppStart.running

/-- String concatenation concatenates the underlying character lists. -/
theorem data_append_eq (a b : String) : (a ++ b).data = a.data ++ b.data := rfl

/-- `litHit p part` holds when `part` is a literal template piece that
contains the pattern `p` as a contiguous sublist. -/
def litHit (p : List Char) : Part → Prop
  | Part.lit cs => p <:+: cs
  | Part.var _ => False

instance (p : List Char) (part : Part) : Decidable (litHit p part) := by
  cases part with
  | lit cs => exact List.decidableInfix p cs
  | var cs => exact instDecidableFalse

/-- A pattern occurring in some literal piece of a template occurs in the
rendered prompt, whatever the placeholder assignment. -/
theorem litHit_renderParts (p : List Char) (ps : List Part) (assign : String → String)
    (h : ∃ part ∈ ps, litHit p part) :
    p <:+: (renderParts ps assign).data := by
  induction ps with
  | nil => simp at h
  | cons x rest ih =>
    have hr : (renderParts (x :: rest) assign).data
        = (substPart assign x).data ++ (renderParts rest assign).data := rfl
    rcases h with ⟨part, hmem, hhit⟩
    rcases List.mem_cons.mp hmem with heq | hmem'
    · subst heq
      cases part with
      | lit cs =>
        have h1 : p <:+: cs := hhit
        have h2 : cs <+: (substPart assign (Part.lit cs)).data ++ (renderParts rest assign).data :=
          List.prefix_append cs _
        rw [hr]
        exact h1.trans h2.isInfix
      | var cs => exact absurd hhit id
    · have h1 : p <:+: (renderParts rest assign).data := ih ⟨part, hmem', hhit⟩
      rw [hr]
      exact h1.trans (List.suffix_append _ _).isInfix

/-- Two display names of supported languages are equal exactly when their
slugs are equal: the `LANGUAGES` mapping identifies no two languages. -/
theorem slug_eq_iff_name_eq : ∀ i j : Fin LANGUAGES.length,
    ((LANGUAGES.get i).2 = (LANGUAGES.get j).2) ↔ ((LANGUAGES.get i).1 = (LANGUAGES.get j).1) := by
  decide

/-- Claim C1: for every request, the template is selected solely by language
equality — if the selected source language equals the selected target
language the IMPROVE (readability) template is used, and otherwise the
CONVERT template is used.  (The handler compares slugs; by injectivity of
`LANGUAGES` this coincides with display-name equality.) -/
theorem C1_template_selection (i j : Fin LANGUAGES.length) (c : String)
    (m : String → Except String String) (h : c ≠ "") :
    ((LANGUAGES.get i).1 = (LANGUAGES.get j).1 →
      (process i j c m).prompt = some (renderImprove (LANGUAGES.get i).1 c))
    ∧ ((LANGUAGES.get i).1 ≠ (LANGUAGES.get j).1 →
      (process i j c m).prompt = some (renderConvert (LANGUAGES.get i).1 (LANGUAGES.get j).1 c)) := by
  constructor <;> intro hn
  · have hs : (LANGUAGES.get i).2 = (LANGUAGES.get j).2 := (slug_eq_iff_name_eq i j).mpr hn
    simp only [process, if_neg h, if_pos hs]
    cases hm : m (renderImprove (LANGUAGES.get i).1 c) <;> simp [hm]
  · have hs : ¬ (LANGUAGES.get i).2 = (LANGUAGES.get j).2 :=
      fun hc => hn ((slug_eq_iff_name_eq i j).mp hc)
    simp only [process, if_neg h, if_neg hs]
    cases hm : m (renderConvert (LANGUAGES.get i).1 (LANGUAGES.get j).1 c) <;> simp [hm]

/-- Witness for C1 at the concrete request (C++ → Python, code "x"). -/
theorem C1_template_selection_witness :
    ("x" : String) ≠ ""
    ∧ (process ⟨0, by decide⟩ ⟨1, by decide⟩ "x" (fun _ => Except.ok "y")).prompt
        = some (renderConvert (LANGUAGES.get (⟨0, by decide⟩ : Fin LANGUAGES.length)).1
            (LANGUAGES.get (⟨1, by decide⟩ : Fin LANGUAGES.length)).1 "x") :=
  ⟨by decide,
    (C1_template_selection ⟨0, by decide⟩ ⟨1, by decide⟩ "x" (fun _ => Except.ok "y")
      (by decide)).2 (by decide)⟩

/-- Claim C2 as stated is false: in the CONVERT prompt rendered for source
"C++", target "Python" and code "int x=1;", the source language is named
twice (not exactly once) and the target three times. -/
theorem C2_convert_names_once_refuted :
    ¬ (countOcc "C++".data (renderConvert "C++" "Python" "int x=1;").data = 1
       ∧ countOcc "Python".data (renderConvert "C++" "Python" "int x=1;").data = 1) := by
  decide

/-- Claim C2 (amended): the CONVERT template carries exactly two
source-language slots and exactly three target-language slots, and in the
rendered prompt for source "C++", target "Python", code "int x=1;" the
source language is named exactly twice and the target exactly three
times. -/
theorem C2_convert_slot_counts :
    (parseTemplate conversion_template).countP (· == Part.var "input_language".data) = 2
    ∧ (parseTemplate conversion_template).countP (· == Part.var "output_language".data) = 3
    ∧ countOcc "C++".data (renderConvert "C++" "Python" "int x=1;").data = 2
    ∧ countOcc "Python".data (renderConvert "C++" "Python" "int x=1;").data = 3 := by
  decide

/-- Claim C3 as stated is false: when C++ is selected for both input and
output, the prompt the handler builds never contains the slug "cpp" — it
names the language by its display name "C++" (three times). -/
theorem C3_slug_in_prompt_refuted :
    countOcc "cpp".data (renderImprove "C++" "x").data = 0
    ∧ countOcc "C++".data (renderImprove "C++" "x").data = 3
    ∧ (process ⟨0, by decide⟩ ⟨0, by decide⟩ "x" (fun _ => Except.ok "y")).prompt
        = some (renderImprove "C++" "x") := by
  refine ⟨by decide, by decide, rfl⟩

/-- Claim C3 (amended): the canonical lowercase slug is the identifier used
for the display-syntax hint of the rendered output, while the prompt text
uses the display name (for C++, the prompt contains "C++" and never
"cpp"). -/
theorem C3_slug_display_only (i j : Fin LANGUAGES.length) (c t : String) (h : c ≠ "") :
    (process i j c (fun _ => Except.ok t)).displayed = some (t, (LANGUAGES.get j).2)
    ∧ countOcc "cpp".data (renderImprove "C++" "x").data = 0
    ∧ countOcc "C++".data (renderImprove "C++" "x").data = 3 := by
  refine ⟨?_, by decide, by decide⟩
  by_cases hs : (LANGUAGES.get i).2 = (LANGUAGES.get j).2 <;>
    simp only [List.get_eq_getElem] at hs <;> simp [process, h, hs]

/-- Witness for the amended C3 at the concrete request (C++ → C++, code "x"). -/
theorem C3_slug_display_only_witness :
    ("x" : String) ≠ ""
    ∧ (process ⟨0, by decide⟩ ⟨0, by decide⟩ "x" (fun _ => Except.ok "y")).displayed
        = some ("y", (LANGUAGES.get (⟨0, by decide⟩ : Fin LANGUAGES.length)).2) :=
  ⟨by decide, (C3_slug_display_only ⟨0, by decide⟩ ⟨0, by decide⟩ "x" "y" (by decide)).1⟩

/-- Claim C4: for every language and code, the rendered IMPROVE prompt
contains the word "Improve", and it contains exactly one copy of the
submitted code — the template carries exactly one code slot, and at the
concrete submission "x=1" the rendered prompt contains that code exactly
once. -/
theorem C4_improve_prompt_contents (l c : String) :
    "Improve".data <:+: (renderImprove l c).data
    ∧ (parseTemplate readability_template).countP (· == Part.var "code".data) = 1
    ∧ countOcc "x=1".data (renderImprove "Python" "x=1").data = 1 := by
  refine ⟨?_, by decide, by decide⟩
  exact litHit_renderParts _ _ _ (by decide)

/-- Claim C5: submitting empty code yields exactly the warning — no prompt
is built, the model is never invoked (the outcome does not depend on the
dispatcher at all), and nothing is displayed. -/
theorem C5_empty_code_rejected (i j : Fin LANGUAGES.length)
    (m m' : String → Except String String) :
    process i j "" m = emptyCodeOutcome
    ∧ process i j "" m = process i j "" m' := by
  constructor <;> simp [process, emptyCodeOutcome]

/-- Claim C6: if `GOOGLE_API_KEY` is absent from the environment at
startup, the app halts before rendering the request-accepting UI, with a
message that names the missing credential. -/
theorem C6_missing_key_halts (env : List (String × String)) (llmInit : Except String Unit)
    (h : env.lookup "GOOGLE_API_KEY" = none) :
    startApp env llmInit = AppStart.halted keyMissingMsg
    ∧ "GOOGLE_API_KEY".data <:+: keyMissingMsg.data := by
  constructor
  · simp [startApp, h]
  · decide

/-- Witness for C6 at the empty environment. -/
theorem C6_missing_key_halts_witness :
    (([] : List (String × String)).lookup "GOOGLE_API_KEY" = none)
    ∧ startApp [] (Except.ok ()) = AppStart.halted keyMissingMsg :=
  ⟨rfl, (C6_missing_key_halts [] (Except.ok ()) rfl).1⟩

/-- Claim C7: when the model call fails (raises), the handler reports a
descriptive error containing the exception text, displays nothing, and the
same request retried against a working model succeeds — the failure never
escapes the dispatch boundary and the app stays usable. -/
theorem C7_dispatch_failure_classified (i j : Fin LANGUAGES.length) (c e t : String)
    (h : c ≠ "") :
    (process i j c (fun _ => Except.error e)).errorMsg
        = some ("An error occurred during processing: " ++ e)
    ∧ (process i j c (fun _ => Except.error e)).displayed = none
    ∧ (process i j c (fun _ => Except.error e)).success = none
    ∧ (process i j c (fun _ => Except.error e)).info = some apiInfoText
    ∧ (process i j c (fun _ => Except.ok t)).displayed = some (t, (LANGUAGES.get j).2)
    ∧ (process i j c (fun _ => Except.ok t)).errorMsg = none := by
  by_cases hs : (LANGUAGES.get i).2 = (LANGUAGES.get j).2 <;>
    simp only [List.get_eq_getElem] at hs <;> simp [process, h, hs]

/-- Witness for C7 at the concrete failing request (C++ → Python, code "x",
exception text "boom"). -/
theorem C7_dispatch_failure_classified_witness :
    ("x" : String) ≠ ""
    ∧ (process ⟨0, by decide⟩ ⟨1, by decide⟩ "x" (fun _ => Except.error "boom")).errorMsg
        = some ("An error occurred during processing: " ++ "boom") :=
  ⟨by decide,
    (C7_dispatch_failure_classified ⟨0, by decide⟩ ⟨1, by decide⟩ "x" "boom" "y" (by decide)).1⟩

/-- Claim C8: every non-empty request is atomic at the output — a prompt is
built, and either the model succeeds and the full returned text is rendered
with no error, or the model fails and nothing is rendered while an error is
shown. -/
theorem C8_request_atomicity (i j : Fin LANGUAGES.length) (c : String)
    (m : String → Except String String) (h : c ≠ "") :
    ∃ p, (process i j c m).prompt = some p
    ∧ ((∃ t, m p = Except.ok t
          ∧ (process i j c m).displayed = some (t, (LANGUAGES.get j).2)
          ∧ (process i j c m).errorMsg = none)
       ∨ (∃ e, m p = Except.error e
          ∧ (process i j c m).displayed = none
          ∧ (process i j c m).errorMsg = some ("An error occurred during processing: " ++ e))) := by
  by_cases hs : (LANGUAGES.get i).2 = (LANGUAGES.get j).2
  · simp only [process, if_neg h, if_pos hs]
    cases hm : m (renderImprove (LANGUAGES.get i).1 c) with
    | ok t => exact ⟨_, rfl, Or.inl ⟨t, hm, rfl, rfl⟩⟩
    | error e => exact ⟨_, rfl, Or.inr ⟨e, hm, rfl, rfl⟩⟩
  · simp only [process, if_neg h, if_neg hs]
    cases hm : m (renderConvert (LANGUAGES.get i).1 (LANGUAGES.get j).1 c) with
    | ok t => exact ⟨_, rfl, Or.inl ⟨t, hm, rfl, rfl⟩⟩
    | error e => exact ⟨_, rfl, Or.inr ⟨e, hm, rfl, rfl⟩⟩

/-- Witness for C8 at the concrete request (C++ → Python, code "x") with a
succeeding model. -/
theorem C8_request_atomicity_witness :
    ("x" : String) ≠ ""
    ∧ ∃ p, (process ⟨0, by decide⟩ ⟨1, by decide⟩ "x" (fun _ => Except.ok "y")).prompt = some p
    ∧ ((∃ t, (fun _ => Except.ok "y" : String → Except String String) p = Except.ok t
          ∧ (process ⟨0, by decide⟩ ⟨1, by decide⟩ "x" (fun _ => Except.ok "y")).displayed
              = some (t, (LANGUAGES.get (⟨1, by decide⟩ : Fin LANGUAGES.length)).2)
          ∧ (process ⟨0, by decide⟩ ⟨1, by decide⟩ "x" (fun _ => Except.ok "y")).errorMsg = none)
       ∨ (∃ e, (fun _ => Except.ok "y" : String → Except String String) p = Except.error e
          ∧ (process ⟨0, by decide⟩ ⟨1, by decide⟩ "x" (fun _ => Except.ok "y")).displayed = none
          ∧ (process ⟨0, by decide⟩ ⟨1, by decide⟩ "x" (fun _ => Except.ok "y")).errorMsg
              = some ("An error occurred during processing: " ++ e))) :=
  ⟨by decide,
    C8_request_atomicity ⟨0, by decide⟩ ⟨1, by decide⟩ "x" (fun _ => Except.ok "y") (by decide)⟩

/-- Claim C9: the prompt builder is pure and deterministic — rendering
either template twice on identical inputs yields identical strings, and the
prompt the handler builds depends only on the selected languages and the
code, never on the dispatcher. -/
theorem C9_builder_deterministic (s t c code : String) (i j : Fin LANGUAGES.length)
    (m m' : String → Except String String) :
    renderConvert s t c = renderConvert s t c
    ∧ renderImprove s c = renderImprove s c
    ∧ (process i j code m).prompt = (process i j code m').prompt := by
  refine ⟨rfl, rfl, ?_⟩
  by_cases h : code = ""
  · simp [process, h]
  · by_cases hs : (LANGUAGES.get i).2 = (LANGUAGES.get j).2
    · simp only [process, if_neg h, if_pos hs]
      cases m (renderImprove (LANGUAGES.get i).1 code) <;>
        cases m' (renderImprove (LANGUAGES.get i).1 code) <;> rfl
    · simp only [process, if_neg h, if_neg hs]
      cases m (renderConvert (LANGUAGES.get i).1 (LANGUAGES.get j).1 code) <;>
        cases m' (renderConvert (LANGUAGES.get i).1 (LANGUAGES.get j).1 code) <;> rfl

/-- Claim C10: the `LANGUAGES` mapping is injective — the ten slugs are
pairwise distinct — so the slug-equality test of the handler succeeds
exactly when the selected display names are equal. -/
theorem C10_languages_injective :
    (LANGUAGES.map Prod.snd).Nodup
    ∧ ∀ i j : Fin LANGUAGES.length,
        ((LANGUAGES.get i).2 = (LANGUAGES.get j).2 ↔ (LANGUAGES.get i).1 = (LANGUAGES.get j).1) := by
  exact ⟨by decide, slug_eq_iff_name_eq⟩

end CodeModernization
